import Mathlib

/-!
Shallow embedding of the referral-tracking backend (Go) and proofs about it.

Conventions of the embedding:
* UUIDs are modelled as `Nat`; timestamps as `Nat` (unix seconds) or `Int`.
* The relational store is modelled as in-memory lists; a `dbUp : Bool` flag
  models reachability of the database (a query on an unreachable store
  returns the driver error, modelled as `RepoError.dbError`).
* `uuid.Parse` of a path parameter is modelled as an `Option Nat` input
  (`none` = unparseable), `decodeJSON` of a request body as an `Option`
  of the DTO (`none` = malformed JSON).
* The go-playground validator is an external library; a handler's
  `validate.Struct` call is modelled as a caller-supplied function
  returning `none` on success or `some msg` (the formatted message).
* Goroutine email sends are fire-and-forget and do not affect any state
  or response modelled here, so they are omitted.
-/

namespace RefBackend

/-- Body of an HTTP JSON response as produced by `respondError` /
`respondJSON` in the handlers package. `payload` stands for a structured
success payload (e.g. an `AuthResponse`) whose content no claim inspects. -/
inductive Body where
  | errorMsg (msg : String)
  | messageMap (fields : List (String × String))
  | payload
  deriving DecidableEq, Repr

/-- An HTTP response: status code plus JSON body. -/
structure Response where
  status : Nat
  body : Body
  deriving DecidableEq, Repr

/-- Sentinel errors of the repository layer (`ErrUserNotFound`,
`ErrReferralNotFound`, `ErrPayoutNotFound`) plus a generic driver error. -/
inductive RepoError where
  | userNotFound
  | referralNotFound
  | payoutNotFound
  | dbError
  deriving DecidableEq, Repr

/-- Model of `models.User` (time fields omitted; they decide nothing here). -/
structure User where
  id : Nat
  email : String
  passwordHash : String
  name : String
  phone : String
  role : String
  bankName : String
  accountNumber : String
  accountName : String
  referralCode : String
  isBlocked : Bool
  deriving DecidableEq, Repr

/-- Model of `models.Referral`. -/
structure Referral where
  id : Nat
  referrerId : Option Nat
  referredName : String
  referredEmail : String
  referredPhone : String
  course : String
  coursePrice : Int
  earnings : Int
  status : String
  deriving DecidableEq, Repr

/-- Model of `models.Payout`. -/
structure Payout where
  id : Nat
  userId : Nat
  amount : Int
  status : String
  approvedBy : Option Nat
  paidAt : Option Nat
  deriving DecidableEq, Repr

/-- Mirrors `UserRepository.GetByEmail`: `SELECT ... FROM users WHERE email = $1`,
`pgx.ErrNoRows` translated to `ErrUserNotFound`. -/
def UserRepository.GetByEmail (dbUp : Bool) (db : List User) (email : String) :
    Except RepoError User :=
  if !dbUp then .error .dbError
  else
    match db.find? (fun u => u.email == email) with
    | some u => .ok u
    | none => .error .userNotFound

/-- Mirrors `UserRepository.GetByReferralCode`: `SELECT ... WHERE referral_code = $1`. -/
def UserRepository.GetByReferralCode (dbUp : Bool) (db : List User) (code : String) :
    Except RepoError User :=
  if !dbUp then .error .dbError
  else
    match db.find? (fun u => u.referralCode == code) with
    | some u => .ok u
    | none => .error .userNotFound

/-- Mirrors `UserRepository.UpdateStatus`: `UPDATE users SET is_blocked = $2 WHERE id = $1`;
zero rows affected yields `ErrUserNotFound`. -/
def UserRepository.UpdateStatus (dbUp : Bool) (db : List User) (userId : Nat)
    (isBlocked : Bool) : Except RepoError (List User) :=
  if !dbUp then .error .dbError
  else if db.any (fun u => u.id == userId) then
    .ok (db.map (fun u => if u.id = userId then { u with isBlocked := isBlocked } else u))
  else .error .userNotFound

/-- Mirrors `ReferralRepository.Create`: `INSERT INTO referrals ...`. -/
def ReferralRepository.Create (dbUp : Bool) (db : List Referral) (referral : Referral) :
    Except RepoError (List Referral) :=
  if !dbUp then .error .dbError
  else .ok (db ++ [referral])

/-- Mirrors `ReferralRepository.UpdateStatus`: `UPDATE referrals SET status = $2 WHERE id = $1`;
zero rows affected yields `ErrReferralNotFound`. The update carries no condition
on the current status. -/
def ReferralRepository.UpdateStatus (dbUp : Bool) (db : List Referral) (id : Nat)
    (status : String) : Except RepoError (List Referral) :=
  if !dbUp then .error .dbError
  else if db.any (fun r => r.id == id) then
    .ok (db.map (fun r => if r.id = id then { r with status := status } else r))
  else .error .referralNotFound

/-- Mirrors `ReferralRepository.MarkReferralsAsPaid`:
`UPDATE referrals SET status = 'paid' WHERE referrer_id = $1 AND status = 'pending'`;
the rows-affected count is not inspected. -/
def ReferralRepository.MarkReferralsAsPaid (dbUp : Bool) (db : List Referral)
    (referrerId : Nat) : Except RepoError (List Referral) :=
  if !dbUp then .error .dbError
  else .ok (db.map (fun r =>
    if r.referrerId = some referrerId ∧ r.status = "pending" then
      { r with status := "paid" }
    else r))

/-- Mirrors `ReferralRepository.MarkReferralAsPaid`: delegates to `UpdateStatus` with "paid". -/
def ReferralRepository.MarkReferralAsPaid (dbUp : Bool) (db : List Referral) (id : Nat) :
    Except RepoError (List Referral) :=
  ReferralRepository.UpdateStatus dbUp db id "paid"

/-- Mirrors `PayoutRepository.UpdateStatus`:
`UPDATE payouts SET status = $2, approved_by = $3, paid_at = CASE WHEN $2 = 'approved'
THEN NOW() ELSE paid_at END WHERE id = $1`; zero rows affected yields
`ErrPayoutNotFound`. `now` models `NOW()`. -/
def PayoutRepository.UpdateStatus (dbUp : Bool) (db : List Payout) (id : Nat)
    (status : String) (approvedBy : Nat) (now : Nat) : Except RepoError (List Payout) :=
  if !dbUp then .error .dbError
  else if db.any (fun p => p.id == id) then
    .ok (db.map (fun p =>
      if p.id = id then
        { p with status := status, approvedBy := some approvedBy,
                 paidAt := if status = "approved" then some now else p.paidAt }
      else p))
  else .error .payoutNotFound

/-- Model of `models.UpdateReferralStatusRequest` (its only validator tag is `required`). -/
structure UpdateReferralStatusRequest where
  status : String
  deriving DecidableEq, Repr

/-- Model of `models.UpdatePayoutStatusRequest`. -/
structure UpdatePayoutStatusRequest where
  status : String
  deriving DecidableEq, Repr

/-- Model of `models.BlockUserRequest`. -/
structure BlockUserRequest where
  isBlocked : Bool
  deriving DecidableEq, Repr

/-- Mirrors `AdminHandler.UpdateReferralStatus` (PATCH admin/referrals/{id}/status). -/
def AdminHandler.UpdateReferralStatus (dbUp : Bool) (db : List Referral)
    (idParam : Option Nat) (body : Option UpdateReferralStatusRequest) :
    Response × List Referral :=
  match idParam with
  | none => (⟨400, .errorMsg "invalid referral ID"⟩, db)
  | some referralId =>
    match body with
    | none => (⟨400, .errorMsg "invalid request body"⟩, db)
    | some req =>
      match ReferralRepository.UpdateStatus dbUp db referralId req.status with
      | .error .referralNotFound => (⟨404, .errorMsg "referral not found"⟩, db)
      | .error _ => (⟨500, .errorMsg "failed to update referral status"⟩, db)
      | .ok db2 => (⟨200, .messageMap [("message", "referral status updated")]⟩, db2)

/-- Mirrors `AdminHandler.MarkReferralPaid` (POST admin/referrals/{id}/paid). -/
def AdminHandler.MarkReferralPaid (dbUp : Bool) (db : List Referral)
    (idParam : Option Nat) : Response × List Referral :=
  match idParam with
  | none => (⟨400, .errorMsg "invalid referral ID"⟩, db)
  | some referralId =>
    match ReferralRepository.MarkReferralAsPaid dbUp db referralId with
    | .error .referralNotFound => (⟨404, .errorMsg "referral not found or already paid"⟩, db)
    | .error _ => (⟨500, .errorMsg "failed to mark referral as paid"⟩, db)
    | .ok db2 => (⟨200, .messageMap [("message", "referral marked as paid")]⟩, db2)

/-- Mirrors `AdminHandler.MarkReferrerPaid` (POST admin/referrers/{id}/paid). -/
def AdminHandler.MarkReferrerPaid (dbUp : Bool) (db : List Referral)
    (idParam : Option Nat) : Response × List Referral :=
  match idParam with
  | none => (⟨400, .errorMsg "invalid referrer ID"⟩, db)
  | some referrerId =>
    match ReferralRepository.MarkReferralsAsPaid dbUp db referrerId with
    | .error _ => (⟨500, .errorMsg "failed to mark referrals as paid"⟩, db)
    | .ok db2 => (⟨200, .messageMap [("message", "referrals marked as paid")]⟩, db2)

/-- Mirrors `AdminHandler.UpdatePayoutStatus` (PATCH admin/payouts/{id}); `adminId` is
`claims.UserID` of the authenticated admin. -/
def AdminHandler.UpdatePayoutStatus (dbUp : Bool) (db : List Payout)
    (idParam : Option Nat) (body : Option UpdatePayoutStatusRequest)
    (adminId : Nat) (now : Nat) : Response × List Payout :=
  match idParam with
  | none => (⟨400, .errorMsg "invalid payout ID"⟩, db)
  | some payoutId =>
    match body with
    | none => (⟨400, .errorMsg "invalid request body"⟩, db)
    | some req =>
      match PayoutRepository.UpdateStatus dbUp db payoutId req.status adminId now with
      | .error .payoutNotFound => (⟨404, .errorMsg "payout not found"⟩, db)
      | .error _ => (⟨500, .errorMsg "failed to update payout"⟩, db)
      | .ok db2 => (⟨200, .messageMap [("message", "payout status updated")]⟩, db2)

/-- Mirrors `AdminHandler.BlockUser` (POST admin/users/{id}/block); `claimsUserId` is
the authenticated admin's own id. -/
def AdminHandler.BlockUser (dbUp : Bool) (db : List User) (idParam : Option Nat)
    (body : Option BlockUserRequest) (claimsUserId : Nat) : Response × List User :=
  match idParam with
  | none => (⟨400, .errorMsg "invalid user ID"⟩, db)
  | some userId =>
    match body with
    | none => (⟨400, .errorMsg "invalid request body"⟩, db)
    | some req =>
      if claimsUserId = userId then (⟨400, .errorMsg "cannot block yourself"⟩, db)
      else
        match UserRepository.UpdateStatus dbUp db userId req.isBlocked with
        | .error .userNotFound => (⟨404, .errorMsg "user not found"⟩, db)
        | .error _ => (⟨500, .errorMsg "failed to update user status"⟩, db)
        | .ok db2 =>
          (⟨200, .messageMap
            [("message", "user " ++ (if req.isBlocked then "blocked" else "unblocked"))]⟩, db2)

/-- Model of `utils.TokenType`. -/
inductive TokenType where
  | access
  | refresh
  deriving DecidableEq, Repr

/-- Model of `utils.Claims`: JWT payload (registered claims beyond expiry/issued-at omitted). -/
structure Claims where
  userId : Nat
  email : String
  role : String
  type : TokenType
  expiresAt : Int
  issuedAt : Int
  deriving DecidableEq, Repr

/-- Signing method carried in a JWT header; the keyfunc accepts only HMAC. -/
inductive SigMethod where
  | hs256
  | other
  deriving DecidableEq, Repr

/-- A structurally well-formed signed token. The HMAC signature is modelled
by recording which secret the token was signed with: verification against a
secret succeeds exactly when the two agree. A malformed token string is
`(none : Option SignedToken)`. -/
structure SignedToken where
  claims : Claims
  method : SigMethod
  signedWith : List Nat
  deriving DecidableEq, Repr

/-- Model of `utils.ErrInvalidToken` / `utils.ErrExpiredToken`. -/
inductive JwtError where
  | invalidToken
  | expiredToken
  deriving DecidableEq, Repr

/-- Model of `utils.JWTManager` (expiry durations passed at call sites here). -/
structure JWTManager where
  accessSecret : List Nat
  refreshSecret : List Nat
  deriving DecidableEq, Repr

/-- Mirrors `JWTManager.validateToken` and `jwt.ParseWithClaims` of golang-jwt/v5:
the keyfunc rejects a non-HMAC method; the signature is verified next; claims
are validated only after the signature (a token is expired when `now` is not
before `exp`), and `errors.Is(err, jwt.ErrTokenExpired)` maps to
`ErrExpiredToken` while any other parse error maps to `ErrInvalidToken`;
finally the token-class tag is compared against the expected one. -/
def JWTManager.validateToken (tok : Option SignedToken) (secret : List Nat)
    (expectedType : TokenType) (now : Int) : Except JwtError Claims :=
  match tok with
  | none => .error .invalidToken
  | some t =>
    if t.method ≠ .hs256 then .error .invalidToken
    else if t.signedWith ≠ secret then .error .invalidToken
    else if t.claims.expiresAt ≤ now then .error .expiredToken
    else if t.claims.type ≠ expectedType then .error .invalidToken
    else .ok t.claims

/-- Mirrors `JWTManager.ValidateAccessToken`. -/
def JWTManager.ValidateAccessToken (j : JWTManager) (tok : Option SignedToken)
    (now : Int) : Except JwtError Claims :=
  JWTManager.validateToken tok j.accessSecret .access now

/-- Mirrors `JWTManager.ValidateRefreshToken`. -/
def JWTManager.ValidateRefreshToken (j : JWTManager) (tok : Option SignedToken)
    (now : Int) : Except JwtError Claims :=
  JWTManager.validateToken tok j.refreshSecret .refresh now

/-- Mirrors `JWTManager.GenerateAccessToken` (`expiry` models `j.accessExpiry`). -/
def JWTManager.GenerateAccessToken (j : JWTManager) (userId : Nat) (email role : String)
    (now expiry : Int) : SignedToken :=
  ⟨⟨userId, email, role, .access, now + expiry, now⟩, .hs256, j.accessSecret⟩

/-- Mirrors `JWTManager.GenerateRefreshToken` (`expiry` models `j.refreshExpiry`). -/
def JWTManager.GenerateRefreshToken (j : JWTManager) (userId : Nat) (email role : String)
    (now expiry : Int) : SignedToken :=
  ⟨⟨userId, email, role, .refresh, now + expiry, now⟩, .hs256, j.refreshSecret⟩

/-- Lowercase hex digit for a nibble, as produced by `encoding/hex`. -/
def hexDigitChar (n : Nat) : Char :=
  if n < 10 then Char.ofNat (48 + n) else Char.ofNat (87 + n)

/-- The `encoding/hex` expansion of one byte into two lowercase hex characters. -/
def hexEncodeByte (b : Fin 256) : List Char :=
  [hexDigitChar (b.val / 16), hexDigitChar (b.val % 16)]

/-- Mirrors `strings.ToUpper`, character-wise (names are treated as character strings). -/
def strToUpper (s : String) : String := String.mk (s.data.map Char.toUpper)

/-- Go slice `s[:n]`, character-wise. -/
def strTake (s : String) (n : Nat) : String := String.mk (s.data.take n)

/-- Go `len(s)`, character-wise. -/
def strLen (s : String) : Nat := s.data.length

/-- Mirrors `utils.GenerateReferralCode`: uppercases the name, truncates it to 3
characters only when longer than 3, and appends "-" plus the first 6
characters of the uppercased hex encoding of 4 random bytes (`b0..b3`
model the bytes read from `crypto/rand`). -/
def GenerateReferralCode (name : String) (b0 b1 b2 b3 : Fin 256) : String :=
  let up := strToUpper name
  let pfx := if strLen up > 3 then strTake up 3 else up
  let hexChars := hexEncodeByte b0 ++ hexEncodeByte b1 ++ hexEncodeByte b2 ++ hexEncodeByte b3
  let sfx := String.mk ((hexChars.map Char.toUpper).take 6)
  pfx ++ "-" ++ sfx

/-- A counter-store entry: current value and optional TTL in seconds. -/
structure CacheEntry where
  value : Nat
  ttlSecs : Option Nat
  deriving DecidableEq, Repr

/-- The counter store's keyspace. -/
def CacheState := String → Option CacheEntry

/-- Modelled from the spec: `cache.Incr` (package internal/cache is not under
src/; the spec calls it an "atomic increment of a counter key"). Increments
the key's counter, creating it at 1 with no TTL, and returns the
post-increment value; errors when the store is unreachable (`up = false`). -/
def Cache.Incr (up : Bool) (st : CacheState) (key : String) :
    Except Unit (Nat × CacheState) :=
  if !up then .error ()
  else
    match st key with
    | some e => .ok (e.value + 1, fun k => if k = key then some ⟨e.value + 1, e.ttlSecs⟩ else st k)
    | none => .ok (1, fun k => if k = key then some ⟨1, none⟩ else st k)

/-- Modelled from the spec: `cache.Expire` sets "a TTL equal to the window
duration" on an existing key (no effect on a missing key). -/
def Cache.Expire (st : CacheState) (key : String) (secs : Nat) : CacheState :=
  fun k =>
    if k = key then
      match st k with
      | some e => some ⟨e.value, some secs⟩
      | none => none
    else st k

/-- Current counter value of a key (0 when absent), for stating properties. -/
def Cache.getValue (st : CacheState) (key : String) : Nat :=
  match st key with
  | some e => e.value
  | none => 0

/-- Current TTL of a key, for stating properties. -/
def Cache.getTtl (st : CacheState) (key : String) : Option Nat :=
  match st key with
  | some e => e.ttlSecs
  | none => none

/-- The parts of an inbound HTTP request the rate limiters read
(`xForwardedFor = ""` models an absent header, as in Go). -/
structure HttpRequest where
  remoteAddr : String
  xForwardedFor : String
  path : String
  deriving DecidableEq, Repr

/-- Client identity: `X-Forwarded-For` if present, else the connection address. -/
def clientIP (r : HttpRequest) : String :=
  if r.xForwardedFor ≠ "" then r.xForwardedFor else r.remoteAddr

/-- Outcome of a pass through a rate-limiting middleware: whether the request
reached the next handler, the limiter's own status/headers, and the counter
store afterwards. -/
structure LimitOutcome where
  passed : Bool
  status : Option Nat
  retryAfter : Option Nat
  headerLimit : Option Nat
  headerRemaining : Option Nat
  state : CacheState

/-- Configuration of `middleware.RateLimiter`. -/
structure RateLimiter where
  requests : Nat
  windowSecs : Nat
  deriving DecidableEq, Repr

/-- Mirrors `RateLimiter.Limit`: global fixed-window limiter keyed by
`"rate_limit:" + ip`. -/
def RateLimiter.Limit (rl : RateLimiter) (up : Bool) (st : CacheState)
    (r : HttpRequest) : LimitOutcome :=
  let key := "rate_limit:" ++ clientIP r
  match Cache.Incr up st key with
  | .error _ => ⟨true, none, none, none, none, st⟩
  | .ok (count, st1) =>
    let st2 := if count = 1 then Cache.Expire st1 key rl.windowSecs else st1
    if count > rl.requests then
      ⟨false, some 429, some rl.windowSecs, none, none, st2⟩
    else
      ⟨true, none, none, some rl.requests, some (rl.requests - count), st2⟩

/-- Configuration of `middleware.AuthRateLimiter`. -/
structure AuthRateLimiter where
  requests : Nat
  windowSecs : Nat
  deriving DecidableEq, Repr

/-- Mirrors `AuthRateLimiter.Limit`: stricter limiter for auth endpoints, keyed by
`"auth_rate_limit:" + path + ":" + ip`. -/
def AuthRateLimiter.Limit (rl : AuthRateLimiter) (up : Bool) (st : CacheState)
    (r : HttpRequest) : LimitOutcome :=
  let key := "auth_rate_limit:" ++ r.path ++ ":" ++ clientIP r
  match Cache.Incr up st key with
  | .error _ => ⟨true, none, none, none, none, st⟩
  | .ok (count, st1) =>
    let st2 := if count = 1 then Cache.Expire st1 key rl.windowSecs else st1
    if count > rl.requests then
      ⟨false, some 429, some rl.windowSecs, none, none, st2⟩
    else
      ⟨true, none, none, some rl.requests, some (rl.requests - count), st2⟩

/-- Sentinel errors of the `services` package plus a generic driver error. -/
inductive AuthError where
  | invalidCredentials
  | emailExists
  | userBlocked
  | dbError
  deriving DecidableEq, Repr

/-- Model of `models.LoginRequest`. -/
structure LoginRequest where
  email : String
  password : String
  deriving DecidableEq, Repr

/-- Model of `models.AuthResponse`. -/
structure AuthResponse where
  accessToken : SignedToken
  refreshToken : SignedToken
  user : User
  deriving DecidableEq, Repr

/-- Mirrors `AuthService.Login`; `checkPassword` models `utils.CheckPassword`
(bcrypt comparison, an external library). -/
def AuthService.Login (checkPassword : String → String → Bool) (j : JWTManager)
    (now accessExpiry refreshExpiry : Int) (dbUp : Bool) (users : List User)
    (req : LoginRequest) : Except AuthError AuthResponse :=
  match UserRepository.GetByEmail dbUp users req.email with
  | .error .userNotFound => .error .invalidCredentials
  | .error _ => .error .dbError
  | .ok user =>
    if user.isBlocked then .error .userBlocked
    else if !(checkPassword req.password user.passwordHash) then .error .invalidCredentials
    else .ok ⟨j.GenerateAccessToken user.id user.email user.role now accessExpiry,
              j.GenerateRefreshToken user.id user.email user.role now refreshExpiry,
              user⟩

/-- Mirrors `AuthHandler.Login` (POST auth/login). -/
def AuthHandler.Login (validate : LoginRequest → Option String)
    (checkPassword : String → String → Bool) (j : JWTManager)
    (now accessExpiry refreshExpiry : Int) (dbUp : Bool) (users : List User)
    (body : Option LoginRequest) : Response :=
  match body with
  | none => ⟨400, .errorMsg "invalid request body"⟩
  | some req =>
    match validate req with
    | some msg => ⟨400, .errorMsg msg⟩
    | none =>
      match AuthService.Login checkPassword j now accessExpiry refreshExpiry dbUp users req with
      | .error .invalidCredentials => ⟨401, .errorMsg "invalid credentials"⟩
      | .error .userBlocked => ⟨403, .errorMsg "user account is blocked"⟩
      | .error _ => ⟨500, .errorMsg "failed to login"⟩
      | .ok _ => ⟨200, .payload⟩

/-- Model of `models.ForgotPasswordRequest`. -/
structure ForgotPasswordRequest where
  email : String
  deriving DecidableEq, Repr

/-- Mirrors `AuthHandler.ForgotPassword` (POST auth/forgot-password). `tokenOk` models
whether `resetTokenRepo.Create` succeeds (token generation + insert); the token
itself only feeds the asynchronous email, which affects nothing modelled here. -/
def AuthHandler.ForgotPassword (validate : ForgotPasswordRequest → Option String)
    (dbUp : Bool) (users : List User) (tokenOk : Bool)
    (body : Option ForgotPasswordRequest) : Response :=
  match body with
  | none => ⟨400, .errorMsg "invalid request body"⟩
  | some req =>
    match validate req with
    | some msg => ⟨400, .errorMsg msg⟩
    | none =>
      match UserRepository.GetByEmail dbUp users req.email with
      | .error _ =>
        ⟨200, .messageMap [("message", "If the email exists, a password reset link will be sent")]⟩
      | .ok _ =>
        if !tokenOk then ⟨500, .errorMsg "failed to create reset token"⟩
        else ⟨200, .messageMap [("message", "If the email exists, a password reset link will be sent")]⟩

/-- Model of `models.StudentRegistrationRequest`. -/
structure StudentRegistrationRequest where
  name : String
  email : String
  phone : String
  course : String
  referralCode : String
  deriving DecidableEq, Repr

/-- The `coursePrices` table of the first copy of the student handler. -/
def coursePricesA : List (String × Int) :=
  [("Web Development", 750000), ("Data Science", 400000), ("Mobile Development", 400000),
   ("UI/UX Design", 350000), ("Digital Marketing", 100000), ("Cybersecurity", 400000),
   ("Cloud Computing", 400000), ("Machine Learning", 400000)]

/-- The `referralCommission` constant of the first copy. -/
def referralCommission : Int := 10000

/-- The `coursePrices` table of the second copy of the student handler. -/
def coursePricesB : List (String × Int) :=
  [("Web Development", 150000), ("Data Science", 180000), ("Mobile Development", 160000),
   ("UI/UX Design", 120000), ("Digital Marketing", 100000), ("Cybersecurity", 200000),
   ("Cloud Computing", 170000), ("Machine Learning", 190000)]

/-- The `earningsPercentage` constant of the second copy. -/
def earningsPercentage : Int := 10

/-- First copy of `StudentHandler.RegisterStudent` (flat commission).
The discarded `InvalidateDashboardCache` call touches only the cache and is
omitted; goroutine emails likewise. -/
def StudentHandlerA.RegisterStudent (validate : StudentRegistrationRequest → Option String)
    (dbUp : Bool) (users : List User) (referrals : List Referral)
    (body : Option StudentRegistrationRequest) (newId : Nat) : Response × List Referral :=
  match body with
  | none => (⟨400, .errorMsg "invalid request body"⟩, referrals)
  | some req =>
    match validate req with
    | some msg => (⟨400, .errorMsg msg⟩, referrals)
    | none =>
      let coursePrice := (coursePricesA.lookup req.course).getD 100000
      let resolution : Except Unit (Option User) :=
        if req.referralCode ≠ "" then
          match UserRepository.GetByReferralCode dbUp users req.referralCode with
          | .error .userNotFound => .ok none
          | .error _ => .error ()
          | .ok u => .ok (some u)
        else .ok none
      match resolution with
      | .error _ => (⟨500, .errorMsg "failed to verify referral code"⟩, referrals)
      | .ok referrerOpt =>
        let earnings : Int :=
          match referrerOpt with
          | some _ => referralCommission
          | none => 0
        let referral : Referral :=
          ⟨newId, referrerOpt.map (fun u => u.id), req.name, req.email, req.phone,
            req.course, coursePrice, earnings, "pending"⟩
        match ReferralRepository.Create dbUp referrals referral with
        | .error _ => (⟨500, .errorMsg "failed to create referral record"⟩, referrals)
        | .ok referrals2 =>
          match referrerOpt with
          | some referrer =>
            (⟨201, .messageMap [("message", "Student registered successfully"),
                                ("referral", "applied"), ("referrer", referrer.name)]⟩, referrals2)
          | none =>
            (⟨201, .messageMap [("message", "Student registered successfully")]⟩, referrals2)

/-- Second copy of `StudentHandler.RegisterStudent` (percentage commission). -/
def StudentHandlerB.RegisterStudent (validate : StudentRegistrationRequest → Option String)
    (dbUp : Bool) (users : List User) (referrals : List Referral)
    (body : Option StudentRegistrationRequest) (newId : Nat) : Response × List Referral :=
  match body with
  | none => (⟨400, .errorMsg "invalid request body"⟩, referrals)
  | some req =>
    match validate req with
    | some msg => (⟨400, .errorMsg msg⟩, referrals)
    | none =>
      let coursePrice := (coursePricesB.lookup req.course).getD 100000
      let resolution : Except Unit (Option User) :=
        if req.referralCode ≠ "" then
          match UserRepository.GetByReferralCode dbUp users req.referralCode with
          | .error .userNotFound => .ok none
          | .error _ => .error ()
          | .ok u => .ok (some u)
        else .ok none
      match resolution with
      | .error _ => (⟨500, .errorMsg "failed to verify referral code"⟩, referrals)
      | .ok referrerOpt =>
        let earnings : Int :=
          match referrerOpt with
          | some _ => coursePrice * earningsPercentage / 100
          | none => 0
        let referral : Referral :=
          ⟨newId, referrerOpt.map (fun u => u.id), req.name, req.email, req.phone,
            req.course, coursePrice, earnings, "pending"⟩
        match ReferralRepository.Create dbUp referrals referral with
        | .error _ => (⟨500, .errorMsg "failed to create referral record"⟩, referrals)
        | .ok referrals2 =>
          match referrerOpt with
          | some referrer =>
            (⟨201, .messageMap [("message", "Student registered successfully"),
                                ("referral", "applied"), ("referrer", referrer.name)]⟩, referrals2)
          | none =>
            (⟨201, .messageMap [("message", "Student registered successfully")]⟩, referrals2)

/-! ### Theorems -/

/-- C1 counterexample: a referral whose status is already "paid" (a terminal
state per the claim) has its status changed to "rejected" by the exposed
admin update-referral-status endpoint, which answers 200. -/
theorem c1_counterexample :
    AdminHandler.UpdateReferralStatus true
        [{ id := 1, referrerId := some 5, referredName := "n", referredEmail := "e",
           referredPhone := "p", course := "c", coursePrice := 100, earnings := 10,
           status := "paid" }]
        (some 1) (some ⟨"rejected"⟩)
      = (⟨200, .messageMap [("message", "referral status updated")]⟩,
         [{ id := 1, referrerId := some 5, referredName := "n", referredEmail := "e",
            referredPhone := "p", course := "c", coursePrice := 100, earnings := 10,
            status := "rejected" }]) ∧
    ("paid" : String) ≠ "rejected" :=
  ⟨by decide, by decide⟩

/-- C1 (amended): only the bulk mark-referrer-paid operation restricts its
update to referrals whose status is "pending", leaving paid/rejected referrals
unchanged; the admin update-referral-status endpoint and mark-referral-paid
set the status of an existing referral to the requested value (resp. "paid")
regardless of its current status, so "paid"/"rejected" are not terminal under
those two operations. -/
theorem c1_amended (db : List Referral) :
    (∀ (rid i : Nat), ((AdminHandler.MarkReferrerPaid true db (some rid)).2)[i]?
        = (db[i]?).map (fun (r : Referral) =>
            if r.referrerId = some rid ∧ r.status = "pending" then
              { r with status := "paid" }
            else r)) ∧
    (∀ id s, (∃ r ∈ db, r.id = id) →
      AdminHandler.UpdateReferralStatus true db (some id) (some ⟨s⟩)
        = (⟨200, .messageMap [("message", "referral status updated")]⟩,
           db.map (fun r => if r.id = id then { r with status := s } else r))) ∧
    (∀ id, (∃ r ∈ db, r.id = id) →
      AdminHandler.MarkReferralPaid true db (some id)
        = (⟨200, .messageMap [("message", "referral marked as paid")]⟩,
           db.map (fun r => if r.id = id then { r with status := "paid" } else r))) := by
  refine ⟨?_, ?_, ?_⟩
  · intro rid i
    simp [AdminHandler.MarkReferrerPaid, ReferralRepository.MarkReferralsAsPaid]
  · rintro id s ⟨r, hr, hid⟩
    have hany : db.any (fun r => r.id == id) = true :=
      List.any_eq_true.mpr ⟨r, hr, by simp [hid]⟩
    simp [AdminHandler.UpdateReferralStatus, ReferralRepository.UpdateStatus, hany]
  · rintro id ⟨r, hr, hid⟩
    have hany : db.any (fun r => r.id == id) = true :=
      List.any_eq_true.mpr ⟨r, hr, by simp [hid]⟩
    simp [AdminHandler.MarkReferralPaid, ReferralRepository.MarkReferralAsPaid,
      ReferralRepository.UpdateStatus, hany]

/-- Witness for C1 (amended): a concrete "rejected" referral is flipped to
"paid" by the single-referral endpoint. -/
theorem c1_amended_witness :
    AdminHandler.UpdateReferralStatus true
        [{ id := 1, referrerId := none, referredName := "n", referredEmail := "e",
           referredPhone := "p", course := "c", coursePrice := 0, earnings := 0,
           status := "rejected" }]
        (some 1) (some ⟨"paid"⟩)
      = (⟨200, .messageMap [("message", "referral status updated")]⟩,
         [{ id := 1, referrerId := none, referredName := "n", referredEmail := "e",
            referredPhone := "p", course := "c", coursePrice := 0, earnings := 0,
            status := "paid" }]) := by
  have h := (c1_amended
    [{ id := 1, referrerId := none, referredName := "n", referredEmail := "e",
       referredPhone := "p", course := "c", coursePrice := 0, earnings := 0,
       status := "rejected" }]).2.1 1 "paid" ⟨_, List.mem_singleton.mpr rfl, rfl⟩
  simpa using h

/-- C4 counterexample: a payout that has already left "pending" (it is
"approved") is transitioned again to "rejected" through the exposed endpoint,
which answers 200 — the transition is not one-way. -/
theorem c4_counterexample :
    AdminHandler.UpdatePayoutStatus true
        [{ id := 1, userId := 2, amount := 100, status := "approved",
           approvedBy := some 9, paidAt := some 50 }]
        (some 1) (some ⟨"rejected"⟩) 9 60
      = (⟨200, .messageMap [("message", "payout status updated")]⟩,
         [{ id := 1, userId := 2, amount := 100, status := "rejected",
            approvedBy := some 9, paidAt := some 50 }]) ∧
    ("approved" : String) ≠ "pending" :=
  ⟨by decide, by decide⟩

/-- C4 (amended): the payout transition records the approving admin's
identity, stamps paid_at exactly when the new status is "approved" (otherwise
paid_at is preserved), and fails with NotFound (404) when the payout does not
exist; but the endpoint does not guard the prior status — any existing payout,
whether or not it is still "pending", is updated to the requested status. -/
theorem c4_amended (db : List Payout) (adminId now : Nat) :
    (∀ id req, (∀ p ∈ db, p.id ≠ id) →
      AdminHandler.UpdatePayoutStatus true db (some id) (some req) adminId now
        = (⟨404, .errorMsg "payout not found"⟩, db)) ∧
    (∀ id req, (∃ p ∈ db, p.id = id) →
      AdminHandler.UpdatePayoutStatus true db (some id) (some req) adminId now
        = (⟨200, .messageMap [("message", "payout status updated")]⟩,
           db.map (fun p =>
             if p.id = id then
               { p with status := req.status, approvedBy := some adminId,
                        paidAt := if req.status = "approved" then some now else p.paidAt }
             else p))) := by
  constructor
  · intro id req habs
    have hany : db.any (fun p => p.id == id) = false := by
      simp only [List.any_eq_false]
      intro p hp
      simpa using habs p hp
    simp [AdminHandler.UpdatePayoutStatus, PayoutRepository.UpdateStatus, hany]
  · rintro id req ⟨p, hp, hid⟩
    have hany : db.any (fun p => p.id == id) = true :=
      List.any_eq_true.mpr ⟨p, hp, by simp [hid]⟩
    simp [AdminHandler.UpdatePayoutStatus, PayoutRepository.UpdateStatus, hany]

/-- Witness for C4 (amended): both branches at concrete inputs — a missing
payout answers 404, and an approved payout is re-transitioned with paid_at
preserved. -/
theorem c4_amended_witness :
    AdminHandler.UpdatePayoutStatus true
        [{ id := 1, userId := 2, amount := 100, status := "approved",
           approvedBy := some 9, paidAt := some 50 }]
        (some 3) (some ⟨"approved"⟩) 9 60
      = (⟨404, .errorMsg "payout not found"⟩,
         [{ id := 1, userId := 2, amount := 100, status := "approved",
            approvedBy := some 9, paidAt := some 50 }]) ∧
    AdminHandler.UpdatePayoutStatus true
        [{ id := 1, userId := 2, amount := 100, status := "rejected",
           approvedBy := some 9, paidAt := none }]
        (some 1) (some ⟨"approved"⟩) 7 60
      = (⟨200, .messageMap [("message", "payout status updated")]⟩,
         [{ id := 1, userId := 2, amount := 100, status := "approved",
            approvedBy := some 7, paidAt := some 60 }]) := by
  constructor
  · have h := (c4_amended
      [{ id := 1, userId := 2, amount := 100, status := "approved",
         approvedBy := some 9, paidAt := some 50 }] 9 60).1 3 ⟨"approved"⟩
      (by intro p hp; simp at hp; simp [hp])
    simpa using h
  · have h := (c4_amended
      [{ id := 1, userId := 2, amount := 100, status := "rejected",
         approvedBy := some 9, paidAt := none }] 7 60).2 1 ⟨"approved"⟩
      ⟨_, List.mem_singleton.mpr rfl, rfl⟩
    simpa using h

/-- C9: when the store is healthy the bulk mark-referrer-paid endpoint answers
200 for every parsed referrer id — even one matching no user and no pending
referral, never 404 — and the store afterwards is the old store with exactly
the pending referrals of that referrer marked "paid" and every other referral
unchanged (pointwise characterisation). -/
theorem c9_mark_referrer_paid (db : List Referral) (rid : Nat) :
    (AdminHandler.MarkReferrerPaid true db (some rid)).1
        = ⟨200, .messageMap [("message", "referrals marked as paid")]⟩ ∧
    (∀ i : Nat, ((AdminHandler.MarkReferrerPaid true db (some rid)).2)[i]?
        = (db[i]?).map (fun (r : Referral) =>
            if r.referrerId = some rid ∧ r.status = "pending" then
              { r with status := "paid" }
            else r)) := by
  constructor
  · simp [AdminHandler.MarkReferrerPaid, ReferralRepository.MarkReferralsAsPaid]
  · intro i
    simp [AdminHandler.MarkReferrerPaid, ReferralRepository.MarkReferralsAsPaid]

/-- C10: the admin block/unblock endpoint rejects self-modification: when the
authenticated admin's id equals the target id in the path, the response is
400 "cannot block yourself" and the user store is returned unchanged (so the
target's blocked flag is untouched), for either requested block value. -/
theorem c10_block_self_rejected (dbUp : Bool) (db : List User) (uid : Nat)
    (req : BlockUserRequest) :
    AdminHandler.BlockUser dbUp db (some uid) (some req) uid
      = (⟨400, .errorMsg "cannot block yourself"⟩, db) := by
  simp [AdminHandler.BlockUser]

/-- C2 counterexample: an access-class token signed with the wrong secret,
whose expiry (0) has passed at `now = 10`, fails `ValidateAccessToken` with
`InvalidToken` rather than `ExpiredToken` — so "fails with ExpiredToken
exactly when the token's expiry has passed" does not hold. -/
theorem c2_counterexample :
    (⟨⟨7, "e", "user", .access, 0, 0⟩, .hs256, [2]⟩ : SignedToken).claims.expiresAt ≤ 10 ∧
    JWTManager.ValidateAccessToken ⟨[0], [1]⟩
        (some ⟨⟨7, "e", "user", .access, 0, 0⟩, .hs256, [2]⟩) 10
      = .error .invalidToken ∧
    JwtError.invalidToken ≠ JwtError.expiredToken :=
  ⟨by decide, rfl, by decide⟩

/-- C2 (amended): validation fails with `ExpiredToken` exactly when the token
is well-formed, HMAC-signed with the validator's secret, and its expiry has
passed (signature verification precedes the expiry check, so an expired token
with a bad signature yields `InvalidToken`); it fails with `InvalidToken`
exactly for a malformed token, a non-HMAC method, a wrong secret, or a
correctly-signed unexpired token of the wrong class; and whenever the two
secrets differ, a refresh token handed to `ValidateAccessToken` (and vice
versa) yields `InvalidToken` no matter its expiry. -/
theorem c2_amended (secret : List Nat) (expectedType : TokenType)
    (tok : Option SignedToken) (now : Int) :
    (JWTManager.validateToken tok secret expectedType now = .error .expiredToken
      ↔ ∃ t : SignedToken, tok = some t ∧ t.method = .hs256 ∧
          t.signedWith = secret ∧ t.claims.expiresAt ≤ now) ∧
    (JWTManager.validateToken tok secret expectedType now = .error .invalidToken
      ↔ (tok = none ∨
          ∃ t : SignedToken, tok = some t ∧
            (t.method ≠ .hs256 ∨ t.signedWith ≠ secret ∨
             (¬ t.claims.expiresAt ≤ now ∧ t.claims.type ≠ expectedType)))) ∧
    (∀ (j : JWTManager) (userId : Nat) (email role : String) (tnow texp vnow : Int),
      j.accessSecret ≠ j.refreshSecret →
      JWTManager.ValidateAccessToken j
          (some (j.GenerateRefreshToken userId email role tnow texp)) vnow
        = .error .invalidToken ∧
      JWTManager.ValidateRefreshToken j
          (some (j.GenerateAccessToken userId email role tnow texp)) vnow
        = .error .invalidToken) := by
  refine ⟨?_, ?_, ?_⟩
  · cases tok with
    | none => simp [JWTManager.validateToken]
    | some t =>
      by_cases hm : t.method = SigMethod.hs256 <;>
        by_cases hs : t.signedWith = secret <;>
          by_cases he : t.claims.expiresAt ≤ now <;>
            by_cases ht : t.claims.type = expectedType <;>
              simp [JWTManager.validateToken, hm, hs, he, ht]
  · cases tok with
    | none => simp [JWTManager.validateToken]
    | some t =>
      by_cases hm : t.method = SigMethod.hs256 <;>
        by_cases hs : t.signedWith = secret <;>
          by_cases he : t.claims.expiresAt ≤ now <;>
            by_cases ht : t.claims.type = expectedType <;>
              simp [JWTManager.validateToken, hm, hs, he, ht]
      all_goals omega
  · intro j userId email role tnow texp vnow hne
    constructor
    · simp [JWTManager.ValidateAccessToken, JWTManager.validateToken,
        JWTManager.GenerateRefreshToken, Ne.symm hne]
    · simp [JWTManager.ValidateRefreshToken, JWTManager.validateToken,
        JWTManager.GenerateAccessToken, hne]

/-- Witness for C2 (amended): a malformed token fails with `InvalidToken`,
and with distinct secrets a fresh refresh token handed to
`ValidateAccessToken` fails with `InvalidToken`. -/
theorem c2_amended_witness :
    JWTManager.validateToken none [0] .access 0 = .error .invalidToken ∧
    JWTManager.ValidateAccessToken ⟨[0], [1]⟩
        (some (JWTManager.GenerateRefreshToken ⟨[0], [1]⟩ 7 "e" "user" 0 100)) 5
      = .error .invalidToken := by
  constructor
  · exact (c2_amended [0] .access none 0).2.1.mpr (Or.inl rfl)
  · exact ((c2_amended [0] .access none 0).2.2 ⟨[0], [1]⟩ 7 "e" "user" 0 100 5
      (by decide)).1

/-- Uppercase hexadecimal digit (transcribing the claim's "uppercase
hexadecimal" wording). -/
def isUpperHexDigit (c : Char) : Bool :=
  "0123456789ABCDEF".data.contains c

/-- The code shape asserted by claim C6, transcribed from its words:
an uppercase 3-letter prefix of the name, "-", then a 6-character uppercase
hexadecimal suffix. -/
def ReferralCodeClaimedShape (name code : String) : Prop :=
  ∃ sfx : String,
    code = strTake (strToUpper name) 3 ++ "-" ++ sfx ∧
    strLen (strTake (strToUpper name) 3) = 3 ∧
    strLen sfx = 6 ∧ sfx.data.all isUpperHexDigit = true

/-- Go `s[:n]` is the identity on a string of at most `n` characters. -/
theorem strTake_of_le (s : String) (n : Nat) (h : strLen s ≤ n) : strTake s n = s := by
  cases s with
  | mk data =>
    exact congrArg String.mk (List.take_of_length_le h)

/-- C6 counterexample: for the two-character name "Jo" the generated code has
a 2-character prefix ("JO"), not an uppercase 3-letter prefix. -/
theorem c6_counterexample :
    ¬ ReferralCodeClaimedShape "Jo" (GenerateReferralCode "Jo" 26 43 60 77) := by
  rintro ⟨sfx, -, hlen, -, -⟩
  exact absurd hlen (by decide)

/-- C6 (amended): the generated code is the uppercased name truncated to at
most 3 characters, then "-", then a 6-character uppercase hexadecimal
suffix; the prefix length is `min 3 (length name)` — 3 exactly when the name
has at least 3 characters, shorter for shorter names. -/
theorem c6_amended (name : String) (b0 b1 b2 b3 : Fin 256) :
    ∃ sfx : String,
      GenerateReferralCode name b0 b1 b2 b3
        = strTake (strToUpper name) 3 ++ "-" ++ sfx ∧
      strLen (strTake (strToUpper name) 3) = min 3 (strLen name) ∧
      strLen sfx = 6 ∧ sfx.data.all isUpperHexDigit = true := by
  refine ⟨String.mk (((hexEncodeByte b0 ++ hexEncodeByte b1 ++ hexEncodeByte b2 ++
    hexEncodeByte b3).map Char.toUpper).take 6), ?_, ?_, ?_, ?_⟩
  · simp only [GenerateReferralCode]
    by_cases h : strLen (strToUpper name) > 3
    · simp [h]
    · rw [if_neg h, strTake_of_le _ 3 (by omega)]
  · simp [strTake, strLen, strToUpper, List.length_take]
  · simp [strLen, List.length_take, hexEncodeByte]
  · have hx : ∀ x < 16, isUpperHexDigit (Char.toUpper (hexDigitChar x)) = true := by decide
    simp only [List.all_eq_true]
    intro c hc
    have hc2 := List.mem_of_mem_take hc
    obtain ⟨d, hd, rfl⟩ := List.mem_map.mp hc2
    have hdis : d = hexDigitChar (b0.val / 16) ∨ d = hexDigitChar (b0.val % 16) ∨
        d = hexDigitChar (b1.val / 16) ∨ d = hexDigitChar (b1.val % 16) ∨
        d = hexDigitChar (b2.val / 16) ∨ d = hexDigitChar (b2.val % 16) ∨
        d = hexDigitChar (b3.val / 16) ∨ d = hexDigitChar (b3.val % 16) := by
      simpa [hexEncodeByte] using hd
    have hdiv : ∀ b : Fin 256, b.val / 16 < 16 := by
      intro b
      omega
    have hmod : ∀ b : Fin 256, b.val % 16 < 16 := by
      intro b
      omega
    rcases hdis with rfl | rfl | rfl | rfl | rfl | rfl | rfl | rfl
    · exact hx _ (hdiv b0)
    · exact hx _ (hmod b0)
    · exact hx _ (hdiv b1)
    · exact hx _ (hmod b1)
    · exact hx _ (hdiv b2)
    · exact hx _ (hmod b2)
    · exact hx _ (hdiv b3)
    · exact hx _ (hmod b3)

/-- C3: for every valid student-registration payload (decoded body, validator
passes) on a healthy store, both copies of the handler create exactly one
Referral row — whether or not the code resolves — and when the referral code
is empty or resolves to no user the request still succeeds (201) as a direct
signup with referrer_id null and earnings 0. -/
theorem c3_register_student (validate : StudentRegistrationRequest → Option String)
    (users : List User) (referrals : List Referral)
    (req : StudentRegistrationRequest) (newId : Nat)
    (hv : validate req = none) :
    ((∃ r : Referral, (StudentHandlerA.RegisterStudent validate true users referrals
        (some req) newId).2 = referrals ++ [r]) ∧
     (∃ r : Referral, (StudentHandlerB.RegisterStudent validate true users referrals
        (some req) newId).2 = referrals ++ [r])) ∧
    ((req.referralCode = "" ∨
        users.find? (fun u => u.referralCode == req.referralCode) = none) →
      StudentHandlerA.RegisterStudent validate true users referrals (some req) newId
        = (⟨201, .messageMap [("message", "Student registered successfully")]⟩,
           referrals ++ [⟨newId, none, req.name, req.email, req.phone, req.course,
             (coursePricesA.lookup req.course).getD 100000, 0, "pending"⟩]) ∧
      StudentHandlerB.RegisterStudent validate true users referrals (some req) newId
        = (⟨201, .messageMap [("message", "Student registered successfully")]⟩,
           referrals ++ [⟨newId, none, req.name, req.email, req.phone, req.course,
             (coursePricesB.lookup req.course).getD 100000, 0, "pending"⟩])) := by
  constructor
  · constructor
    · by_cases hrc : req.referralCode = ""
      · exact ⟨⟨newId, none, req.name, req.email, req.phone, req.course,
          (coursePricesA.lookup req.course).getD 100000, 0, "pending"⟩,
          by simp [StudentHandlerA.RegisterStudent, hv, hrc, ReferralRepository.Create]⟩
      · cases hfind : users.find? (fun u => u.referralCode == req.referralCode) with
        | none =>
          exact ⟨⟨newId, none, req.name, req.email, req.phone, req.course,
            (coursePricesA.lookup req.course).getD 100000, 0, "pending"⟩,
            by simp [StudentHandlerA.RegisterStudent, hv, hrc,
              UserRepository.GetByReferralCode, hfind, ReferralRepository.Create]⟩
        | some u =>
          exact ⟨⟨newId, some u.id, req.name, req.email, req.phone, req.course,
            (coursePricesA.lookup req.course).getD 100000, referralCommission, "pending"⟩,
            by simp [StudentHandlerA.RegisterStudent, hv, hrc,
              UserRepository.GetByReferralCode, hfind, ReferralRepository.Create]⟩
    · by_cases hrc : req.referralCode = ""
      · exact ⟨⟨newId, none, req.name, req.email, req.phone, req.course,
          (coursePricesB.lookup req.course).getD 100000, 0, "pending"⟩,
          by simp [StudentHandlerB.RegisterStudent, hv, hrc, ReferralRepository.Create]⟩
      · cases hfind : users.find? (fun u => u.referralCode == req.referralCode) with
        | none =>
          exact ⟨⟨newId, none, req.name, req.email, req.phone, req.course,
            (coursePricesB.lookup req.course).getD 100000, 0, "pending"⟩,
            by simp [StudentHandlerB.RegisterStudent, hv, hrc,
              UserRepository.GetByReferralCode, hfind, ReferralRepository.Create]⟩
        | some u =>
          exact ⟨⟨newId, some u.id, req.name, req.email, req.phone, req.course,
            (coursePricesB.lookup req.course).getD 100000,
            (coursePricesB.lookup req.course).getD 100000 * earningsPercentage / 100,
            "pending"⟩,
            by simp [StudentHandlerB.RegisterStudent, hv, hrc,
              UserRepository.GetByReferralCode, hfind, ReferralRepository.Create]⟩
  · intro hdirect
    by_cases hrc : req.referralCode = ""
    · constructor <;>
        simp [StudentHandlerA.RegisterStudent, StudentHandlerB.RegisterStudent, hv, hrc,
          ReferralRepository.Create]
    · have hfind : users.find? (fun u => u.referralCode == req.referralCode) = none := by
        rcases hdirect with h | h
        · exact absurd h hrc
        · exact h
      constructor <;>
        simp [StudentHandlerA.RegisterStudent, StudentHandlerB.RegisterStudent, hv, hrc,
          UserRepository.GetByReferralCode, hfind, ReferralRepository.Create]

/-- Witness for C3: an unknown referral code on an empty user store yields a
201 direct signup with referrer_id null and earnings 0. -/
theorem c3_register_student_witness :
    StudentHandlerA.RegisterStudent (fun _ => none) true [] []
        (some ⟨"Ada", "a@b.c", "1", "Web Development", "ZZZ-000000"⟩) 42
      = (⟨201, .messageMap [("message", "Student registered successfully")]⟩,
         [⟨42, none, "Ada", "a@b.c", "1", "Web Development", 750000, 0, "pending"⟩]) := by
  have h := (c3_register_student (fun _ => none) [] []
    ⟨"Ada", "a@b.c", "1", "Web Development", "ZZZ-000000"⟩ 42 rfl).2 (Or.inr rfl)
  exact h.1.trans (by decide)

/-- C7: two-run noninterference for forgot-password — with a well-formed
request in each run, a healthy store, and healthy token creation, the run
whose email exists and the run whose email does not produce the identical
response (status 200 and the same message), revealing nothing about whether
the email exists. -/
theorem c7_forgot_password_noninterference
    (validate : ForgotPasswordRequest → Option String)
    (users1 users2 : List User) (e1 e2 : String)
    (hv1 : validate ⟨e1⟩ = none) (hv2 : validate ⟨e2⟩ = none)
    (hex : ∃ u ∈ users1, u.email = e1)
    (hnex : ∀ u ∈ users2, u.email ≠ e2) :
    AuthHandler.ForgotPassword validate true users1 true (some ⟨e1⟩)
      = AuthHandler.ForgotPassword validate true users2 true (some ⟨e2⟩) ∧
    AuthHandler.ForgotPassword validate true users1 true (some ⟨e1⟩)
      = ⟨200, .messageMap
          [("message", "If the email exists, a password reset link will be sent")]⟩ := by
  obtain ⟨u, hu, hue⟩ := hex
  have hfind2 : users2.find? (fun v => v.email == e2) = none := by
    rw [List.find?_eq_none]
    intro v hv
    simpa using hnex v hv
  have h2 : AuthHandler.ForgotPassword validate true users2 true (some ⟨e2⟩)
      = ⟨200, .messageMap
          [("message", "If the email exists, a password reset link will be sent")]⟩ := by
    simp [AuthHandler.ForgotPassword, hv2, UserRepository.GetByEmail, hfind2]
  have h1 : AuthHandler.ForgotPassword validate true users1 true (some ⟨e1⟩)
      = ⟨200, .messageMap
          [("message", "If the email exists, a password reset link will be sent")]⟩ := by
    cases hfind1 : users1.find? (fun v => v.email == e1) with
    | none =>
      exact absurd ((List.find?_eq_none.mp hfind1) u hu) (by simp [hue])
    | some v =>
      simp [AuthHandler.ForgotPassword, hv1, UserRepository.GetByEmail, hfind1]
  exact ⟨h1.trans h2.symm, h1⟩

/-- Witness for C7: concrete runs — email "a" is present in the first store,
email "b" absent from the second — give the same 200 response. -/
theorem c7_forgot_password_witness :
    AuthHandler.ForgotPassword (fun _ => none) true
        [⟨1, "a", "h", "N", "p", "user", "", "", "", "N-000000", false⟩] true (some ⟨"a"⟩)
      = AuthHandler.ForgotPassword (fun _ => none) true [] true (some ⟨"b"⟩) ∧
    AuthHandler.ForgotPassword (fun _ => none) true [] true (some ⟨"b"⟩)
      = ⟨200, .messageMap
          [("message", "If the email exists, a password reset link will be sent")]⟩ := by
  have h := c7_forgot_password_noninterference (fun _ => none)
    [⟨1, "a", "h", "N", "p", "user", "", "", "", "N-000000", false⟩] [] "a" "b"
    rfl rfl ⟨⟨1, "a", "h", "N", "p", "user", "", "", "", "N-000000", false⟩,
      List.mem_singleton.mpr rfl, rfl⟩ (by intro u hu; simp at hu)
  exact ⟨h.1, h.1.symm.trans h.2⟩

/-- C8: a blocked account fails login with the dedicated user-blocked error
(403 "user account is blocked") before the password is checked — the result
holds for every password-checking outcome, in particular a wrong password —
while an unknown email or a wrong password on an unblocked account yields
401 "invalid credentials", a distinct response. -/
theorem c8_blocked_login (checkPassword : String → String → Bool)
    (validate : LoginRequest → Option String) (j : JWTManager)
    (now aExp rExp : Int) (users : List User) (req : LoginRequest) (u : User)
    (hfind : UserRepository.GetByEmail true users req.email = .ok u)
    (hv : validate req = none) :
    (u.isBlocked = true →
      AuthService.Login checkPassword j now aExp rExp true users req
        = .error .userBlocked ∧
      AuthHandler.Login validate checkPassword j now aExp rExp true users (some req)
        = ⟨403, .errorMsg "user account is blocked"⟩) ∧
    (u.isBlocked = false → checkPassword req.password u.passwordHash = false →
      AuthHandler.Login validate checkPassword j now aExp rExp true users (some req)
        = ⟨401, .errorMsg "invalid credentials"⟩) ∧
    (∀ (users' : List User) (req' : LoginRequest), validate req' = none →
      UserRepository.GetByEmail true users' req'.email = .error .userNotFound →
      AuthHandler.Login validate checkPassword j now aExp rExp true users' (some req')
        = ⟨401, .errorMsg "invalid credentials"⟩) ∧
    (⟨403, .errorMsg "user account is blocked"⟩ : Response)
      ≠ ⟨401, .errorMsg "invalid credentials"⟩ := by
  refine ⟨?_, ?_, ?_, by decide⟩
  · intro hb
    constructor
    · simp [AuthService.Login, hfind, hb]
    · simp [AuthHandler.Login, AuthService.Login, hv, hfind, hb]
  · intro hb hp
    simp [AuthHandler.Login, AuthService.Login, hv, hfind, hb, hp]
  · intro users' req' hv2 hfind2
    simp [AuthHandler.Login, AuthService.Login, hv2, hfind2]

/-- Witness for C8: a concrete blocked user with a failing password check
still receives 403 "user account is blocked". -/
theorem c8_blocked_login_witness :
    AuthHandler.Login (fun _ => none) (fun _ _ => false) ⟨[0], [1]⟩ 0 10 20 true
        [⟨1, "a", "h", "N", "p", "user", "", "", "", "N-000000", true⟩] (some ⟨"a", "wrong"⟩)
      = ⟨403, .errorMsg "user account is blocked"⟩ := by
  have h := (c8_blocked_login (fun _ _ => false) (fun _ => none) ⟨[0], [1]⟩ 0 10 20
    [⟨1, "a", "h", "N", "p", "user", "", "", "", "N-000000", true⟩] ⟨"a", "wrong"⟩
    ⟨1, "a", "h", "N", "p", "user", "", "", "", "N-000000", true⟩
    (by simp [UserRepository.GetByEmail]) rfl).1 rfl
  exact h.2

/-- Computation of `Cache.Incr` on a reachable store: the post-increment
value is the old value plus one, and only the addressed key changes. -/
theorem Cache.Incr_ok (st : CacheState) (key : String) :
    Cache.Incr true st key = .ok (Cache.getValue st key + 1,
      fun k => if k = key then some ⟨Cache.getValue st key + 1, Cache.getTtl st key⟩
               else st k) := by
  unfold Cache.Incr Cache.getValue Cache.getTtl
  cases h : st key <;> simp [h]

/-- The body shared by the two limiter middlewares, abstracted over the
counter key; `RateLimiter.Limit` and `AuthRateLimiter.Limit` are this step at
their respective keys (definitional equalities below). -/
def limitStep (requests windowSecs : Nat) (up : Bool) (st : CacheState)
    (key : String) : LimitOutcome :=
  match Cache.Incr up st key with
  | .error _ => ⟨true, none, none, none, none, st⟩
  | .ok (count, st1) =>
    let st2 := if count = 1 then Cache.Expire st1 key windowSecs else st1
    if count > requests then
      ⟨false, some 429, some windowSecs, none, none, st2⟩
    else
      ⟨true, none, none, some requests, some (requests - count), st2⟩

/-- Fact: `RateLimiter.Limit` is `limitStep` at the global key. -/
theorem rateLimit_eq_step (rl : RateLimiter) (up : Bool) (st : CacheState)
    (r : HttpRequest) :
    RateLimiter.Limit rl up st r
      = limitStep rl.requests rl.windowSecs up st ("rate_limit:" ++ clientIP r) := rfl

/-- Fact: `AuthRateLimiter.Limit` is `limitStep` at the auth key. -/
theorem authRateLimit_eq_step (rl : AuthRateLimiter) (up : Bool)
    (st : CacheState) (r : HttpRequest) :
    AuthRateLimiter.Limit rl up st r
      = limitStep rl.requests rl.windowSecs up st
          ("auth_rate_limit:" ++ r.path ++ ":" ++ clientIP r) := rfl

/-- Closed form of one limiter pass on a reachable store. -/
theorem limitStep_true_eq (requests windowSecs : Nat) (st : CacheState) (key : String) :
    limitStep requests windowSecs true st key =
      if Cache.getValue st key + 1 > requests then
        ⟨false, some 429, some windowSecs, none, none,
          if Cache.getValue st key + 1 = 1 then
            Cache.Expire (fun k => if k = key then
              some ⟨Cache.getValue st key + 1, Cache.getTtl st key⟩ else st k) key windowSecs
          else (fun k => if k = key then
            some ⟨Cache.getValue st key + 1, Cache.getTtl st key⟩ else st k)⟩
      else
        ⟨true, none, none, some requests,
          some (requests - (Cache.getValue st key + 1)),
          if Cache.getValue st key + 1 = 1 then
            Cache.Expire (fun k => if k = key then
              some ⟨Cache.getValue st key + 1, Cache.getTtl st key⟩ else st k) key windowSecs
          else (fun k => if k = key then
            some ⟨Cache.getValue st key + 1, Cache.getTtl st key⟩ else st k)⟩ := by
  unfold limitStep
  rw [Cache.Incr_ok]

/-- Behaviour of one limiter pass, for an arbitrary key. -/
theorem limitStep_spec (requests windowSecs : Nat) (st : CacheState) (key : String) :
    (Cache.getValue (limitStep requests windowSecs true st key).state key
        = Cache.getValue st key + 1) ∧
    (Cache.getValue st key + 1 = 1 →
      Cache.getTtl (limitStep requests windowSecs true st key).state key
        = some windowSecs) ∧
    (Cache.getValue st key + 1 ≠ 1 →
      Cache.getTtl (limitStep requests windowSecs true st key).state key
        = Cache.getTtl st key) ∧
    (Cache.getValue st key + 1 > requests →
      (limitStep requests windowSecs true st key).passed = false ∧
      (limitStep requests windowSecs true st key).status = some 429 ∧
      (limitStep requests windowSecs true st key).retryAfter = some windowSecs) ∧
    (¬ Cache.getValue st key + 1 > requests →
      (limitStep requests windowSecs true st key).passed = true ∧
      (limitStep requests windowSecs true st key).status = none ∧
      (limitStep requests windowSecs true st key).headerLimit = some requests ∧
      (limitStep requests windowSecs true st key).headerRemaining
        = some (requests - (Cache.getValue st key + 1))) ∧
    ((limitStep requests windowSecs false st key).passed = true ∧
      (limitStep requests windowSecs false st key).state = st) := by
  have hfo : limitStep requests windowSecs false st key
      = ⟨true, none, none, none, none, st⟩ := by
    simp [limitStep, Cache.Incr]
  refine ⟨?_, ?_, ?_, ?_, ?_, by rw [hfo], by rw [hfo]⟩
  · rw [limitStep_true_eq]
    split_ifs <;> simp [Cache.Expire, Cache.getValue, Cache.getTtl]
  · intro h1
    rw [limitStep_true_eq]
    split_ifs <;> simp [Cache.Expire, Cache.getValue, Cache.getTtl]
  · intro h1
    rw [limitStep_true_eq]
    split_ifs <;>
      first
        | omega
        | simp [Cache.Expire, Cache.getValue, Cache.getTtl]
  · intro h2
    rw [limitStep_true_eq]
    split_ifs <;>
      first
        | omega
        | simp
  · intro h2
    rw [limitStep_true_eq]
    split_ifs <;>
      first
        | omega
        | simp

/-- C5: for each of the two fixed-window limiters — on a reachable store the
client's counter is incremented; a TTL equal to the window is set exactly when
the post-increment value is 1 (otherwise the TTL is untouched); the request is
rejected with 429 and Retry-After equal to the window in seconds exactly when
the post-increment value exceeds the limit, and otherwise it passes with
remaining-quota headers; on an unreachable store the request is allowed
through and the store is unchanged (fail-open). -/
theorem c5_rate_limiters (rl : RateLimiter) (arl : AuthRateLimiter)
    (st : CacheState) (r : HttpRequest) :
    (Cache.getValue (RateLimiter.Limit rl true st r).state ("rate_limit:" ++ clientIP r)
        = Cache.getValue st ("rate_limit:" ++ clientIP r) + 1) ∧
    (Cache.getValue st ("rate_limit:" ++ clientIP r) + 1 = 1 →
      Cache.getTtl (RateLimiter.Limit rl true st r).state ("rate_limit:" ++ clientIP r)
        = some rl.windowSecs) ∧
    (Cache.getValue st ("rate_limit:" ++ clientIP r) + 1 ≠ 1 →
      Cache.getTtl (RateLimiter.Limit rl true st r).state ("rate_limit:" ++ clientIP r)
        = Cache.getTtl st ("rate_limit:" ++ clientIP r)) ∧
    (Cache.getValue st ("rate_limit:" ++ clientIP r) + 1 > rl.requests →
      (RateLimiter.Limit rl true st r).passed = false ∧
      (RateLimiter.Limit rl true st r).status = some 429 ∧
      (RateLimiter.Limit rl true st r).retryAfter = some rl.windowSecs) ∧
    (¬ Cache.getValue st ("rate_limit:" ++ clientIP r) + 1 > rl.requests →
      (RateLimiter.Limit rl true st r).passed = true ∧
      (RateLimiter.Limit rl true st r).status = none ∧
      (RateLimiter.Limit rl true st r).headerLimit = some rl.requests ∧
      (RateLimiter.Limit rl true st r).headerRemaining
        = some (rl.requests - (Cache.getValue st ("rate_limit:" ++ clientIP r) + 1))) ∧
    ((RateLimiter.Limit rl false st r).passed = true ∧
      (RateLimiter.Limit rl false st r).state = st) ∧
    (Cache.getValue (AuthRateLimiter.Limit arl true st r).state
        ("auth_rate_limit:" ++ r.path ++ ":" ++ clientIP r)
        = Cache.getValue st ("auth_rate_limit:" ++ r.path ++ ":" ++ clientIP r) + 1) ∧
    (Cache.getValue st ("auth_rate_limit:" ++ r.path ++ ":" ++ clientIP r) + 1 = 1 →
      Cache.getTtl (AuthRateLimiter.Limit arl true st r).state
          ("auth_rate_limit:" ++ r.path ++ ":" ++ clientIP r)
        = some arl.windowSecs) ∧
    (Cache.getValue st ("auth_rate_limit:" ++ r.path ++ ":" ++ clientIP r) + 1 ≠ 1 →
      Cache.getTtl (AuthRateLimiter.Limit arl true st r).state
          ("auth_rate_limit:" ++ r.path ++ ":" ++ clientIP r)
        = Cache.getTtl st ("auth_rate_limit:" ++ r.path ++ ":" ++ clientIP r)) ∧
    (Cache.getValue st ("auth_rate_limit:" ++ r.path ++ ":" ++ clientIP r) + 1
        > arl.requests →
      (AuthRateLimiter.Limit arl true st r).passed = false ∧
      (AuthRateLimiter.Limit arl true st r).status = some 429 ∧
      (AuthRateLimiter.Limit arl true st r).retryAfter = some arl.windowSecs) ∧
    (¬ Cache.getValue st ("auth_rate_limit:" ++ r.path ++ ":" ++ clientIP r) + 1
        > arl.requests →
      (AuthRateLimiter.Limit arl true st r).passed = true ∧
      (AuthRateLimiter.Limit arl true st r).status = none ∧
      (AuthRateLimiter.Limit arl true st r).headerLimit = some arl.requests ∧
      (AuthRateLimiter.Limit arl true st r).headerRemaining
        = some (arl.requests -
            (Cache.getValue st ("auth_rate_limit:" ++ r.path ++ ":" ++ clientIP r) + 1))) ∧
    ((AuthRateLimiter.Limit arl false st r).passed = true ∧
      (AuthRateLimiter.Limit arl false st r).state = st) := by
  have hA := limitStep_spec rl.requests rl.windowSecs st ("rate_limit:" ++ clientIP r)
  have hB := limitStep_spec arl.requests arl.windowSecs st
    ("auth_rate_limit:" ++ r.path ++ ":" ++ clientIP r)
  simp only [rateLimit_eq_step, authRateLimit_eq_step]
  exact ⟨hA.1, hA.2.1, hA.2.2.1, hA.2.2.2.1, hA.2.2.2.2.1, hA.2.2.2.2.2,
    hB.1, hB.2.1, hB.2.2.1, hB.2.2.2.1, hB.2.2.2.2.1, hB.2.2.2.2.2⟩

/-- Witness for C5: on an empty store the first request sets a TTL of 60
seconds, and on a store already at 5 a limiter with limit 1 rejects with 429. -/
theorem c5_rate_limiters_witness :
    Cache.getTtl (RateLimiter.Limit ⟨1, 60⟩ true (fun _ => none)
        ⟨"1.2.3.4", "", "/x"⟩).state ("rate_limit:" ++ clientIP ⟨"1.2.3.4", "", "/x"⟩)
      = some 60 ∧
    (RateLimiter.Limit ⟨1, 60⟩ true (fun _ => some ⟨5, some 60⟩)
        ⟨"1.2.3.4", "", "/x"⟩).status = some 429 := by
  constructor
  · exact (c5_rate_limiters ⟨1, 60⟩ ⟨1, 60⟩ (fun _ => none)
      ⟨"1.2.3.4", "", "/x"⟩).2.1 (by decide)
  · exact ((c5_rate_limiters ⟨1, 60⟩ ⟨1, 60⟩ (fun _ => some ⟨5, some 60⟩)
      ⟨"1.2.3.4", "", "/x"⟩).2.2.2.1 (by decide)).2.1

end RefBackend
